import Mathlib

/-! # Judge Builder: verification of the orchestration-and-caching core

A shallow embedding of the caching / evaluation / alignment core of the
`judge-builder` service (`server/services/cache_service.py`,
`server/services/alignment_service.py`, `server/judges/custom_prompt_judge.py`)
together with proofs about it.

Machine integers are modelled as `Nat` with explicit reduction `% 2 ^ 32`
where 32-bit overflow matters (the SHA-256 kernel).  Stateful Python code is
modelled by explicit state passing over `St`; calls to the external MLflow /
labeling / optimizer collaborators are modelled by an explicit environment
`Env` of response functions; Python exceptions are modelled with `Except`.
The two `cachetools.TTLCache` instances are modelled as association lists:
the claims under study never exercise capacity eviction or time expiry, so
the time/size parameters are not part of the model.
-/

namespace JudgeBuilder

/-! ## SHA-256 (FIPS 180-4) over `Nat`, reduced mod `2 ^ 32`

`CacheService.compute_dataset_version` hashes with `hashlib.sha256`; this is
a byte-level implementation of that digest. -/

/-- The 32-bit word modulus `2 ^ 32`. -/
def M32 : Nat := 4294967296

/-- Reduce to a 32-bit word. -/
def mask32 (x : Nat) : Nat := x % M32

/-- Right rotation of a 32-bit word by `n` places. -/
def rotr (n x : Nat) : Nat := (x >>> n) ||| mask32 (x <<< (32 - n))

/-- Bitwise complement on 32 bits. -/
def bnot32 (x : Nat) : Nat := x ^^^ (M32 - 1)

/-- SHA-256 `Ch` function. -/
def ch (x y z : Nat) : Nat := (x &&& y) ^^^ (bnot32 x &&& z)

/-- SHA-256 `Maj` function. -/
def maj (x y z : Nat) : Nat := (x &&& y) ^^^ (x &&& z) ^^^ (y &&& z)

/-- SHA-256 `Σ₀`. -/
def bigSigma0 (x : Nat) : Nat := rotr 2 x ^^^ rotr 13 x ^^^ rotr 22 x

/-- SHA-256 `Σ₁`. -/
def bigSigma1 (x : Nat) : Nat := rotr 6 x ^^^ rotr 11 x ^^^ rotr 25 x

/-- SHA-256 `σ₀`. -/
def smallSigma0 (x : Nat) : Nat := rotr 7 x ^^^ rotr 18 x ^^^ (x >>> 3)

/-- SHA-256 `σ₁`. -/
def smallSigma1 (x : Nat) : Nat := rotr 17 x ^^^ rotr 19 x ^^^ (x >>> 10)

/-- The 64 SHA-256 round constants (FIPS 180-4 section 4.2.2, here in
decimal). -/
def K256 : List Nat :=
  [1116352408, 1899447441, 3049323471, 3921009573, 961987163, 1508970993,
   2453635748, 2870763221, 3624381080, 310598401, 607225278, 1426881987,
   1925078388, 2162078206, 2614888103, 3248222580, 3835390401, 4022224774,
   264347078, 604807628, 770255983, 1249150122, 1555081692, 1996064986,
   2554220882, 2821834349, 2952996808, 3210313671, 3336571891, 3584528711,
   113926993, 338241895, 666307205, 773529912, 1294757372, 1396182291,
   1695183700, 1986661051, 2177026350, 2456956037, 2730485921, 2820302411,
   3259730800, 3345764771, 3516065817, 3600352804, 4094571909, 275423344,
   430227734, 506948616, 659060556, 883997877, 958139571, 1322822218,
   1537002063, 1747873779, 1955562222, 2024104815, 2227730452, 2361852424,
   2428436474, 2756734187, 3204031479, 3329325298]

/-- Eight 32-bit words: a SHA-256 chaining value or round state. -/
structure Hash8 where
  a : Nat
  b : Nat
  c : Nat
  d : Nat
  e : Nat
  f : Nat
  g : Nat
  h : Nat
deriving DecidableEq, Repr

/-- The SHA-256 initial hash value (FIPS 180-4 section 5.3.3, in decimal). -/
def initH : Hash8 :=
  ⟨1779033703, 3144134277, 1013904242, 2773480762,
   1359893119, 2600822924, 528734635, 1541459225⟩

/-- One SHA-256 round, consuming a pair (round constant, schedule word). -/
def roundStep (st : Hash8) (kw : Nat × Nat) : Hash8 :=
  let t1 := mask32 (st.h + bigSigma1 st.e + ch st.e st.f st.g + kw.1 + kw.2)
  let t2 := mask32 (bigSigma0 st.a + maj st.a st.b st.c)
  ⟨mask32 (t1 + t2), st.a, st.b, st.c, mask32 (st.d + t1), st.e, st.f, st.g⟩

/-- One message-schedule extension step: append `W[t]` for `t = acc.length`. -/
def scheduleStep (acc : List Nat) (_i : Nat) : List Nat :=
  let t := acc.length
  let w := mask32 (smallSigma1 (acc.getD (t - 2) 0) + acc.getD (t - 7) 0 +
    smallSigma0 (acc.getD (t - 15) 0) + acc.getD (t - 16) 0)
  acc ++ [w]

/-- Extend the 16 block words to the 64 schedule words. -/
def schedule (ws : List Nat) : List Nat := (List.range 48).foldl scheduleStep ws

/-- Big-endian 32-bit words from bytes. -/
def bytesToWords : List Nat → List Nat
  | b0 :: b1 :: b2 :: b3 :: rest =>
    ((b0 <<< 24) + (b1 <<< 16) + (b2 <<< 8) + b3) :: bytesToWords rest
  | _ => []

/-- Big-endian 8-byte encoding of the 64-bit message bit length. -/
def bytesBE8 (n : Nat) : List Nat :=
  [(n >>> 56) % 256, (n >>> 48) % 256, (n >>> 40) % 256, (n >>> 32) % 256,
   (n >>> 24) % 256, (n >>> 16) % 256, (n >>> 8) % 256, n % 256]

/-- SHA-256 padding: `0x80`, zeros to 56 mod 64, then the bit length. -/
def padMessage (msg : List Nat) : List Nat :=
  let r := msg.length % 64
  let padZeros := (119 - r) % 64
  msg ++ 128 :: (List.replicate padZeros 0 ++ bytesBE8 (msg.length * 8))

/-- Split a byte list into 64-byte blocks, with structural fuel (the list
length bounds the number of blocks, since each step consumes a nonempty
prefix). -/
def toBlocksAux : Nat → List Nat → List (List Nat)
  | 0, _ => []
  | _ + 1, [] => []
  | n + 1, l => l.take 64 :: toBlocksAux n (l.drop 64)

/-- Split the padded message into 64-byte blocks. -/
def toBlocks (l : List Nat) : List (List Nat) := toBlocksAux l.length l

/-- Compress one 64-byte block into the chaining value. -/
def compressBlock (hv : Hash8) (block : List Nat) : Hash8 :=
  let ws := schedule (bytesToWords block)
  let st := (K256.zip ws).foldl roundStep hv
  ⟨mask32 (hv.a + st.a), mask32 (hv.b + st.b), mask32 (hv.c + st.c), mask32 (hv.d + st.d),
   mask32 (hv.e + st.e), mask32 (hv.f + st.f), mask32 (hv.g + st.g), mask32 (hv.h + st.h)⟩

/-- SHA-256 digest of a byte sequence, as eight 32-bit words. -/
def sha256Words (msg : List Nat) : Hash8 :=
  (toBlocks (padMessage msg)).foldl compressBlock initH

/-- The lowercase hex digit for `n` (callers pass values below 16). -/
def hexChar : Nat → Char
  | 0 => '0' | 1 => '1' | 2 => '2' | 3 => '3' | 4 => '4' | 5 => '5' | 6 => '6' | 7 => '7'
  | 8 => '8' | 9 => '9' | 10 => 'a' | 11 => 'b' | 12 => 'c' | 13 => 'd' | 14 => 'e' | _ => 'f'

/-- Eight hex digits of a 32-bit word, most significant first. -/
def wordHexChars (w : Nat) : List Char :=
  [hexChar ((w >>> 28) % 16), hexChar ((w >>> 24) % 16), hexChar ((w >>> 20) % 16),
   hexChar ((w >>> 16) % 16), hexChar ((w >>> 12) % 16), hexChar ((w >>> 8) % 16),
   hexChar ((w >>> 4) % 16), hexChar (w % 16)]

/-- The 64-character lowercase hex digest (`hashlib.sha256(...).hexdigest()`). -/
def sha256HexChars (msg : List Nat) : List Char :=
  let d := sha256Words msg
  ([d.a, d.b, d.c, d.d, d.e, d.f, d.g, d.h].map wordHexChars).flatten

/-- UTF-8 bytes of one code point (Python `str.encode()` is UTF-8). -/
def utf8Bytes (c : Char) : List Nat :=
  let n := c.toNat
  if n < 128 then [n]
  else if n < 2048 then [192 + n / 64, 128 + n % 64]
  else if n < 65536 then [224 + n / 4096, 128 + (n / 64) % 64, 128 + n % 64]
  else [240 + n / 262144, 128 + (n / 4096) % 64, 128 + (n / 64) % 64, 128 + n % 64]

/-- UTF-8 encoding of a string. -/
def strBytes (s : String) : List Nat := (s.data.map utf8Bytes).flatten

/-- Code-point lexicographic comparison of character lists: how Python
compares strings. -/
def charsLeb : List Char → List Char → Bool
  | [], _ => true
  | _ :: _, [] => false
  | c :: cs, d :: ds =>
    if c.toNat < d.toNat then true
    else if d.toNat < c.toNat then false
    else charsLeb cs ds

/-- Python string `<=`: code-point lexicographic. -/
def strLeb (a b : String) : Bool := charsLeb a.data b.data

/-- Relation form of `strLeb`, for `List.insertionSort`. -/
def strLe (a b : String) : Prop := strLeb a b = true

instance : DecidableRel strLe := fun a b => Bool.decEq (strLeb a b) true

/-- Embeds `CacheService.compute_dataset_version` (`cache_service.py` lines 25-42):
sort the trace ids (Python `sorted` over Python string comparison, which
keeps duplicates), concatenate with no separator, and keep the first 8 hex
characters of the SHA-256 digest. -/
def compute_dataset_version (trace_ids : List String) : String :=
  let sorted_trace_ids := List.insertionSort strLe trace_ids
  let hash_input := String.join sorted_trace_ids
  String.mk (List.take 8 (sha256HexChars (strBytes hash_input)))

/-- The sixteen lowercase hex digits. -/
def hexAlphabet : List Char := "0123456789abcdef".data

/-- The fingerprint as the spec words it (sections 4.1 and 6): "first 8 hex
characters of SHA-256 over the concatenation of the sorted, deduplicated
trace-id list (no separator)".  Kept separate from
`compute_dataset_version`, which is translated from the source and does not
deduplicate, so the two can be compared. -/
def spec_fingerprint (trace_ids : List String) : String :=
  String.mk
    (List.take 8 (sha256HexChars (strBytes (String.join
      (List.insertionSort strLe trace_ids.dedup)))))

/-! ## Data model

Lean counterparts of the pydantic models in `server/models.py` that the
claims touch, plus a `Trace` carrying the fields this core reads.  Feedback
payloads, which the claims never inspect, are left out of the records that
would carry them (`evaluation_results` is kept as the list the code builds,
which on every path in `evaluate_judge` is the empty list). -/

/-- A judge registry record (`JudgeResponse` fields read by this core). -/
structure Judge where
  id : String
  name : String
  version : Nat
  experiment_id : String
  labeling_run_id : String
  instructions : String
deriving DecidableEq, Repr

/-- An MLflow trace as this core reads it: its id plus opaque payload. -/
structure Trace where
  trace_id : String
  request : String
  response : String
deriving DecidableEq, Repr

/-- A labeled example from the labeling collaborator (its trace pointer). -/
structure LabelExample where
  trace_id : String
deriving DecidableEq, Repr

/-- Model `EvaluationResult` from `server/models.py`. -/
structure EvaluationResult where
  judge_id : String
  judge_version : Nat
  mlflow_run_id : String
  evaluation_results : List String
  total_traces : Nat
deriving DecidableEq, Repr

/-- Model `ConfusionMatrix` counts from `server/models.py`. -/
structure ConfusionMatrix where
  true_positive : Nat
  false_negative : Nat
  false_positive : Nat
  true_negative : Nat
deriving DecidableEq, Repr

/-- Model `AlignmentResponse` from `server/models.py` (`improvement_metrics` is always
`None` in `run_alignment`, modelled as `Option Unit`). -/
structure AlignmentResponse where
  judge_id : String
  success : Bool
  message : String
  new_version : Nat
  improvement_metrics : Option Unit
deriving DecidableEq, Repr

/-- Python exceptions this core raises, by class. -/
inductive PyError where
  | valueError (msg : String)
  | attributeError (msg : String)
  | runtimeError (msg : String)
  | executorError (msg : String)
deriving DecidableEq, Repr

instance {ε α : Type} [DecidableEq ε] [DecidableEq α] : DecidableEq (Except ε α) := fun x y =>
  match x, y with
  | Except.ok a, Except.ok b =>
    if h : a = b then Decidable.isTrue (by rw [h]) else Decidable.isFalse (by simp [h])
  | Except.ok _, Except.error _ => Decidable.isFalse (by simp)
  | Except.error _, Except.ok _ => Decidable.isFalse (by simp)
  | Except.error a, Except.error b =>
    if h : a = b then Decidable.isTrue (by rw [h]) else Decidable.isFalse (by simp [h])

/-- Observable calls to the external collaborators and to the bulk trace
invalidation, recorded newest first so the claims can count them. -/
inductive Event where
  | evaluatorCall (judge_id : String) (version : Nat)
  | invalidateTracesCall (trace_ids : List String)
  | optimizeCall (judge_id : String)
  | createVersionCall (judge_id : String)
  | setTagCall (run_id : String) (value : String)
deriving DecidableEq, Repr

/-- Responses of the external collaborators (MLflow tracking backend, scorer
registry, labeling service, optimizer).  These are fixed for a run: the
model has no hidden nondeterminism. -/
structure Env where
  remote_trace : String → Option Trace
  search_run : String → Nat → String → String → Option String
  scorer_names : List String
  fresh_run_id : String → Nat → String
  evaluate_exec : String → Nat → Except String Unit
  get_examples : String → List LabelExample
  labeled_examples : String → Nat
  optimize_result : List Trace → Bool
  optimized_instructions : String

/-- Mutable process state: the two caches of `CacheService`, the judge
registry held by the external `judge_service`, and the event log. -/
structure St where
  trace_cache : List (String × Trace)
  evaluation_cache : List (String × String)
  judges : List Judge
  events : List Event
deriving DecidableEq, Repr

/-- Association-list lookup (dict read). -/
def alGet {α : Type} (m : List (String × α)) (k : String) : Option α :=
  (m.find? (fun p => p.1 == k)).map (fun p => p.2)

/-- Association-list overwrite (dict write). -/
def alPut {α : Type} (m : List (String × α)) (k : String) (v : α) : List (String × α) :=
  (k, v) :: m.filter (fun p => !(p.1 == k))

/-- Association-list delete (dict `del`). -/
def alDel {α : Type} (m : List (String × α)) (k : String) : List (String × α) :=
  m.filter (fun p => !(p.1 == k))

/-- Python truthiness of an optional string: `None` and the empty string are falsy. -/
def truthyStr (o : Option String) : Bool :=
  match o with
  | none => false
  | some s => !(s == "")

/-! ## CacheService (`server/services/cache_service.py`) -/

/-- The evaluation-run cache key: judge id, judge version and dataset version joined with colons. -/
def evalCacheKey (judge_id : String) (judge_version : Nat) (dataset_version : String) : String :=
  judge_id ++ ":" ++ toString judge_version ++ ":" ++ dataset_version

/-- Embeds `CacheService.get_trace` (lines 44-70): serve from the trace cache, else
fetch from MLflow and cache; a fetch failure is caught and yields `None`,
which the environment models by `remote_trace` returning `none`. -/
def get_trace (env : Env) (st : St) (trace_id : String) : Option Trace × St :=
  match alGet st.trace_cache trace_id with
  | some t => (some t, st)
  | none =>
    match env.remote_trace trace_id with
    | some t => (some t, { st with trace_cache := alPut st.trace_cache trace_id t })
    | none => (none, st)

/-- Embeds `CacheService.find_evaluation_run` (lines 105-125): remote search by the
judge/version/dataset tags; a found run is written back into the evaluation
cache; search failure is caught and yields `None`. -/
def find_evaluation_run (env : Env) (st : St) (judge_id : String) (judge_version : Nat)
    (experiment_id : String) (dataset_version : String) : Option String × St :=
  match env.search_run judge_id judge_version experiment_id dataset_version with
  | some run_id =>
    let cache := alPut st.evaluation_cache (evalCacheKey judge_id judge_version dataset_version) run_id
    (some run_id, { st with evaluation_cache := cache })
  | none => (none, st)

/-- Embeds `CacheService.get_evaluation_run_id` (lines 72-103): direct cache hit,
else (when `experiment_id` is truthy) the remote-search fallback; the
searched run id is returned only when truthy (`if run_id:`). -/
def get_evaluation_run_id (env : Env) (st : St) (judge_id : String) (judge_version : Nat)
    (trace_ids : List String) (experiment_id : Option String) : Option String × St :=
  let dataset_version := compute_dataset_version trace_ids
  let cache_key := evalCacheKey judge_id judge_version dataset_version
  match alGet st.evaluation_cache cache_key with
  | some run_id => (some run_id, st)
  | none =>
    match experiment_id with
    | some eid =>
      if eid == "" then (none, st)
      else
        let found := find_evaluation_run env st judge_id judge_version eid dataset_version
        if truthyStr found.1 then found else (none, found.2)
    | none => (none, st)

/-- Embeds `CacheService.cache_evaluation_run_id` (lines 127-142). -/
def cache_evaluation_run_id (st : St) (judge_id : String) (judge_version : Nat)
    (trace_ids : List String) (run_id : String) : St :=
  let cache :=
    alPut st.evaluation_cache
      (evalCacheKey judge_id judge_version (compute_dataset_version trace_ids)) run_id
  { st with evaluation_cache := cache }

/-- Embeds `CacheService.invalidate_traces` (lines 154-166): bulk-delete the given
ids from the trace cache.  The event records the call for observation. -/
def invalidate_traces (st : St) (trace_ids : List String) : St :=
  { st with
      trace_cache := trace_ids.foldl (fun c tid => alDel c tid) st.trace_cache,
      events := Event.invalidateTracesCall trace_ids :: st.events }

/-- The call `cache_service.get_traces(trace_ids)` at
`alignment_service.py:323`: `CacheService` defines no method `get_traces`
(its only trace reader is the single-trace `get_trace`), so in Python this
attribute access raises `AttributeError` before any argument is touched. -/
def cache_service_get_traces (st : St) (_trace_ids : List String) :
    Except PyError (List Trace) × St :=
  (Except.error (PyError.attributeError
    "CacheService object has no attribute get_traces"), st)

/-! ## External collaborators not under `src/` (modelled from the spec) -/

/-- Modelled from the spec: `judge_service.get_judge` of the external judge
registry collaborator (`server/services/judge_service.py` is not under
`src/`); spec section 6: "judge registry (get/create/list versions)".  Looks
up a judge by id in the registry state. -/
def get_judge (st : St) (judge_id : String) : Option Judge :=
  st.judges.find? (fun j => j.id == judge_id)

/-- Modelled from the spec: `judge_service.create_new_version` of the
external judge registry (`server/services/judge_service.py` is not under
`src/`); spec section 3: alignment "produces a new `Judge` record with
`version = previous.version + 1`", section 4.4: "carrying forward the same
experiment/identity".  The new record replaces the judge id's entry and the
call is recorded in the event log. -/
def create_new_version (st : St) (judge_id : String) (instructions : String) : Judge × St :=
  match get_judge st judge_id with
  | some j =>
    let nj : Judge := { j with version := j.version + 1, instructions := instructions }
    (nj, { st with
            judges := nj :: st.judges.filter (fun x => !(x.id == judge_id)),
            events := Event.createVersionCall judge_id :: st.events })
  | none =>
    (⟨judge_id, "", 0, "", "", instructions⟩,
      { st with events := Event.createVersionCall judge_id :: st.events })

/-- Modelled from the spec: `create_scorer_name` from
`server/utils/naming_utils.py` (not under `src/`); spec section 6: the
registry resolves a "registered scorer by name+version".  Only its
injectivity in (name, version) matters to the claims. -/
def create_scorer_name (name : String) (version : Nat) : String :=
  name ++ "_v" ++ toString version

/-! ## AlignmentService (`server/services/alignment_service.py`) -/

/-- Embeds `AlignmentService._get_judge_scorer` (lines 47-61): an early `None` on an
empty scorer list, else the first registered scorer whose name equals
`create_scorer_name(judge.name, judge.version)`. -/
def get_judge_scorer (env : Env) (judge : Judge) : Option String :=
  if env.scorer_names.isEmpty then none
  else env.scorer_names.find? (fun s => s == create_scorer_name judge.name judge.version)

/-- The trace-resolution loop shared by `evaluate_judge` (lines 99-105) and
`run_alignment` (lines 292-298): look each id up through the trace cache and
keep the ones that resolve, in order. -/
def fetch_traces (env : Env) (st : St) : List String → List Trace × St
  | [] => ([], st)
  | tid :: rest =>
    match get_trace env st tid with
    | (some t, st2) =>
      match fetch_traces env st2 rest with
      | (ts, st3) => (t :: ts, st3)
    | (none, st2) => fetch_traces env st2 rest

/-- The cache-miss path of `AlignmentService.evaluate_judge` (lines 88-134):
scorer lookup, trace resolution, then the external evaluation run, tagged
and — on executor success — cached.  Failures are the `raise`s of the
source plus a failing `mlflow.genai.evaluate` call. -/
def evaluate_judge_miss (env : Env) (st1 : St) (judge : Judge) (judge_id : String)
    (trace_ids : List String) : Except PyError EvaluationResult × St :=
  match get_judge_scorer env judge with
  | none =>
    (Except.error (PyError.valueError ("Scorer for judge " ++ judge.name ++ " not found")), st1)
  | some _scorer =>
    match fetch_traces env st1 trace_ids with
    | (traces, st2) =>
      if traces.isEmpty then
        (Except.error (PyError.valueError "No valid traces found"), st2)
      else
        let run_id := env.fresh_run_id judge_id judge.version
        let st3 := { st2 with events := Event.evaluatorCall judge_id judge.version :: st2.events }
        match env.evaluate_exec judge_id judge.version with
        | Except.error e => (Except.error (PyError.executorError e), st3)
        | Except.ok _ =>
          let st4 := cache_evaluation_run_id st3 judge_id judge.version trace_ids run_id
          (Except.ok
            { judge_id := judge_id, judge_version := judge.version, mlflow_run_id := run_id,
              evaluation_results := [], total_traces := traces.length }, st4)

/-- The `try`-block body of `AlignmentService.evaluate_judge`, before the
miss path: judge lookup and the cache fast path (`if cached_run_id:` is
Python truthiness, so an empty-string run id does not count as a hit). -/
def evaluate_judge_body (env : Env) (st : St) (judge_id : String) (trace_ids : List String) :
    Except PyError EvaluationResult × St :=
  match get_judge st judge_id with
  | none => (Except.error (PyError.valueError ("Judge " ++ judge_id ++ " not found")), st)
  | some judge =>
    match get_evaluation_run_id env st judge_id judge.version trace_ids (some judge.experiment_id) with
    | (cached, st1) =>
      if truthyStr cached then
        (Except.ok
          { judge_id := judge_id, judge_version := judge.version,
            mlflow_run_id := cached.getD "", evaluation_results := [],
            total_traces := trace_ids.length }, st1)
      else evaluate_judge_miss env st1 judge judge_id trace_ids

/-- The zero-count, empty-result response of the `except` handler
(`alignment_service.py` lines 136-144). -/
def degraded_result (judge_id : String) : EvaluationResult :=
  { judge_id := judge_id, judge_version := 0, mlflow_run_id := "",
    evaluation_results := [], total_traces := 0 }

/-- Embeds `AlignmentService.evaluate_judge` (lines 64-144): the body under a
catch-all that converts every failure into `degraded_result`. -/
def evaluate_judge (env : Env) (st : St) (judge_id : String) (trace_ids : List String) :
    EvaluationResult × St :=
  match evaluate_judge_body env st judge_id trace_ids with
  | (Except.ok r, st2) => (r, st2)
  | (Except.error _, st2) => (degraded_result judge_id, st2)

/-- Threshold `MIN_EXAMPLES_FOR_OPTIMIZATION` (`custom_prompt_judge.py` line 18). -/
def MIN_EXAMPLES_FOR_OPTIMIZATION : Nat := 10

/-- The insufficient-data message of `run_alignment` (line 309), naming the
actual count and the threshold. -/
def insufficient_examples_message (found : Nat) : String :=
  "Insufficient labeled examples for alignment. Found " ++ toString found ++
    " labeled examples, but need at least " ++ toString MIN_EXAMPLES_FOR_OPTIMIZATION ++
    ". Please complete more labeling tasks before running alignment."

/-- Embeds `AlignmentService.run_alignment` (lines 277-371).  The steps, in source
order: judge lookup; labeled-example fetch and trace resolution; the
sufficiency check; baseline evaluation (via `evaluate_judge`, which cannot
raise); first trace-cache invalidation; the `cache_service.get_traces` call
(which raises `AttributeError`, see `cache_service_get_traces`); and then
the source's continuation — optimization, version creation, re-evaluation,
second invalidation, run tagging, success response — which that error makes
unreachable. -/
def run_alignment (env : Env) (st : St) (judge_id : String) :
    Except PyError AlignmentResponse × St :=
  match get_judge st judge_id with
  | none => (Except.error (PyError.valueError ("Judge " ++ judge_id ++ " not found")), st)
  | some current_judge =>
    match fetch_traces env st ((env.get_examples judge_id).map LabelExample.trace_id) with
    | (traces, st1) =>
      if traces.isEmpty then
        (Except.error (PyError.valueError "No traces found in labeling session"), st1)
      else
        let labeled := env.labeled_examples judge_id
        if labeled < MIN_EXAMPLES_FOR_OPTIMIZATION then
          (Except.error (PyError.valueError (insufficient_examples_message labeled)), st1)
        else
          let trace_ids := traces.map Trace.trace_id
          match evaluate_judge env st1 judge_id trace_ids with
          | (_, st2) =>
            let st3 := invalidate_traces st2 trace_ids
            match cache_service_get_traces st3 trace_ids with
            | (Except.error e, st4) => (Except.error e, st4)
            | (Except.ok fresh_traces, st4) =>
              let st5 := { st4 with events := Event.optimizeCall judge_id :: st4.events }
              if !(env.optimize_result fresh_traces) then
                (Except.error (PyError.runtimeError
                  "Judge optimization failed. Please check the app logs for details."), st5)
              else
                match create_new_version st5 judge_id env.optimized_instructions with
                | (new_judge, st6) =>
                  match evaluate_judge env st6 new_judge.id trace_ids with
                  | (_, st7) =>
                    let st8 := invalidate_traces st7 trace_ids
                    let aligned := env.labeled_examples judge_id
                    let st9 :=
                      { st8 with events :=
                          Event.setTagCall current_judge.labeling_run_id (toString aligned) ::
                            st8.events }
                    (Except.ok
                      { judge_id := new_judge.id, success := true,
                        message := "Successfully optimized judge from version " ++
                          toString current_judge.version ++ " to " ++
                          toString new_judge.version ++ " using " ++ toString aligned ++
                          " aligned samples",
                        new_version := new_judge.version, improvement_metrics := none }, st9)

/-- Python `str.lower()`, character by character (the labels under study are
ASCII, where `Char.toLower` agrees with Python). -/
def strLower (s : String) : String := String.mk (s.data.map Char.toLower)

/-- The per-pair normalization of `calculate_confusion_matrix` (lines
393-405): case-insensitive comparison with the literal `'pass'`. -/
def label_is_pass (s : String) : Bool := strLower s == "pass"

/-- One loop iteration of `calculate_confusion_matrix`. -/
def cm_tally (acc : ConfusionMatrix) (p : String × String) : ConfusionMatrix :=
  let human_pass := label_is_pass p.1
  let judge_pass := label_is_pass p.2
  if human_pass && judge_pass then { acc with true_positive := acc.true_positive + 1 }
  else if human_pass && !judge_pass then { acc with false_negative := acc.false_negative + 1 }
  else if !human_pass && judge_pass then { acc with false_positive := acc.false_positive + 1 }
  else { acc with true_negative := acc.true_negative + 1 }

/-- Embeds `AlignmentService.calculate_confusion_matrix` (lines 373-412): a length
check that raises `ValueError`, then the tally loop over the zipped labels. -/
def calculate_confusion_matrix (human_labels judge_results : List String) :
    Except PyError ConfusionMatrix :=
  if human_labels.length != judge_results.length then
    Except.error (PyError.valueError "Human labels and judge results must have the same length")
  else
    Except.ok ((human_labels.zip judge_results).foldl cm_tally ⟨0, 0, 0, 0⟩)

/-- The agreement count of `get_alignment_comparison` (line 269):
`sum(1 for h, p in zip(...) if h.lower() == p.lower())`. -/
def agreement_count (human_labels judge_results : List String) : Nat :=
  (human_labels.zip judge_results).countP (fun p => strLower p.1 == strLower p.2)

/-- Both labels read pass (true positive). -/
def tp_pred (p : String × String) : Bool := label_is_pass p.1 && label_is_pass p.2

/-- Human pass, judge fail (false negative). -/
def fn_pred (p : String × String) : Bool := label_is_pass p.1 && !label_is_pass p.2

/-- Human fail, judge pass (false positive). -/
def fp_pred (p : String × String) : Bool := !label_is_pass p.1 && label_is_pass p.2

/-- Both labels read fail (true negative). -/
def tn_pred (p : String × String) : Bool := !label_is_pass p.1 && !label_is_pass p.2

/-- Case-insensitive label agreement (`h.lower() == p.lower()`). -/
def agree_pred (p : String × String) : Bool := strLower p.1 == strLower p.2

/-! ## Event counting -/

/-- Is the event an external-evaluator invocation? -/
def isEvaluatorCall : Event → Bool
  | Event.evaluatorCall _ _ => true
  | _ => false

/-- Is the event a bulk trace-cache invalidation? -/
def isInvalidateCall : Event → Bool
  | Event.invalidateTracesCall _ => true
  | _ => false

/-- Is the event an optimizer invocation? -/
def isOptimizeCall : Event → Bool
  | Event.optimizeCall _ => true
  | _ => false

/-- Is the event a judge-version creation? -/
def isCreateVersionCall : Event → Bool
  | Event.createVersionCall _ => true
  | _ => false

/-- Count the events satisfying `p`. -/
def countEvents (p : Event → Bool) (events : List Event) : Nat := events.countP p

/-! ## Concrete scenario environments and states

Closed inputs the counterexamples, code-bug demonstrations and witnesses
evaluate the model on. -/

/-- A scenario environment: the judge exists and its scorer is registered,
traces resolve, but the external executor fails on every invocation, so
nothing is ever cached. -/
def envFailExec : Env :=
  { remote_trace := fun tid => some ⟨tid, "q", "r"⟩
    search_run := fun _ _ _ _ => none
    scorer_names := ["judgeA_v1"]
    fresh_run_id := fun _ _ => "run-1"
    evaluate_exec := fun _ _ => Except.error "executor down"
    get_examples := fun _ => [⟨"t1"⟩, ⟨"t2"⟩]
    labeled_examples := fun _ => 12
    optimize_result := fun _ => false
    optimized_instructions := "opt" }

/-- A scenario environment: the executor succeeds but the backend hands out
the empty string as run id, which the hit path treats as falsy. -/
def envEmptyRun : Env :=
  { envFailExec with
      fresh_run_id := fun _ _ => ""
      evaluate_exec := fun _ _ => Except.ok () }

/-- A scenario environment: everything succeeds (executor ok, nonempty run
ids). -/
def envOk : Env := { envFailExec with evaluate_exec := fun _ _ => Except.ok () }

/-- The one-judge registry used by the concrete scenarios: judge `j1`,
name `judgeA`, version 1. -/
def judge1 : Judge := ⟨"j1", "judgeA", 1, "exp1", "lr1", "ins"⟩

/-- The initial state of the concrete scenarios: empty caches, `judge1`
registered, no events. -/
def st0 : St := ⟨[], [], [judge1], []⟩

/-- State `st0` with the evaluation-run key for judge `j1` version 1 on traces
`["t1", "t2"]` already cached as `"r0"`. -/
def stHit : St :=
  { st0 with evaluation_cache :=
      [(evalCacheKey "j1" 1 (compute_dataset_version ["t1", "t2"]), "r0")] }

/-- A scenario environment for alignment: no labeled example resolves and
only 3 examples are labeled. -/
def envNoTraces : Env :=
  { envFailExec with get_examples := fun _ => [], labeled_examples := fun _ => 3 }

/-- A scenario environment for alignment: 12 labeled examples, all of whose
traces resolve, with a succeeding executor — the spec's successful
v1-to-v2 alignment scenario. -/
def envAlign : Env :=
  { envOk with
      get_examples := fun _ =>
        [⟨"t01"⟩, ⟨"t02"⟩, ⟨"t03"⟩, ⟨"t04"⟩, ⟨"t05"⟩, ⟨"t06"⟩,
         ⟨"t07"⟩, ⟨"t08"⟩, ⟨"t09"⟩, ⟨"t10"⟩, ⟨"t11"⟩, ⟨"t12"⟩] }

/-! ## Proof layer: the string order used by `sorted` -/

/-- Characters with equal code points are equal. -/
theorem char_eq_of_toNat_eq {c d : Char} (h : c.toNat = d.toNat) : c = d := by
  have hc := Char.ofNat_toNat c
  rw [h, Char.ofNat_toNat] at hc
  exact hc.symm

/-- Totality of `charsLeb`. -/
theorem charsLeb_total : ∀ as bs : List Char, charsLeb as bs = true ∨ charsLeb bs as = true
  | [], _ => Or.inl rfl
  | _ :: _, [] => Or.inr rfl
  | c :: cs, d :: ds => by
    by_cases h1 : c.toNat < d.toNat
    · exact Or.inl (by simp [charsLeb, h1])
    · by_cases h2 : d.toNat < c.toNat
      · exact Or.inr (by simp [charsLeb, h2])
      · rcases charsLeb_total cs ds with h | h
        · exact Or.inl (by simp [charsLeb, h1, h2, h])
        · exact Or.inr (by simp [charsLeb, h1, h2, h])

/-- Antisymmetry of `charsLeb`. -/
theorem charsLeb_antisymm :
    ∀ as bs : List Char, charsLeb as bs = true → charsLeb bs as = true → as = bs
  | [], [], _, _ => rfl
  | [], _ :: _, _, h2 => by simp [charsLeb] at h2
  | _ :: _, [], h1, _ => by simp [charsLeb] at h1
  | c :: cs, d :: ds, h1, h2 => by
    by_cases hcd : c.toNat < d.toNat
    · have hdc : ¬ d.toNat < c.toNat := by omega
      simp [charsLeb, hcd, hdc] at h2
    · by_cases hdc : d.toNat < c.toNat
      · simp [charsLeb, hcd, hdc] at h1
      · have heq : c = d := char_eq_of_toNat_eq (by omega)
        have h1a : charsLeb cs ds = true := by simpa [charsLeb, hcd, hdc] using h1
        have h2a : charsLeb ds cs = true := by simpa [charsLeb, hcd, hdc] using h2
        rw [heq, charsLeb_antisymm cs ds h1a h2a]

/-- Transitivity of `charsLeb`. -/
theorem charsLeb_trans :
    ∀ as bs cs : List Char,
      charsLeb as bs = true → charsLeb bs cs = true → charsLeb as cs = true
  | [], _, _, _, _ => rfl
  | _ :: _, [], _, h1, _ => by simp [charsLeb] at h1
  | _ :: _, _ :: _, [], _, h2 => by simp [charsLeb] at h2
  | a :: as, b :: bs, c :: cs, h1, h2 => by
    by_cases hab : a.toNat < b.toNat <;> by_cases hbc : b.toNat < c.toNat
    · have hac : a.toNat < c.toNat := by omega
      simp [charsLeb, hac]
    · by_cases hcb : c.toNat < b.toNat
      · simp [charsLeb, hbc, hcb] at h2
      · have hac : a.toNat < c.toNat := by omega
        simp [charsLeb, hac]
    · by_cases hba : b.toNat < a.toNat
      · simp [charsLeb, hab, hba] at h1
      · have hac : a.toNat < c.toNat := by omega
        simp [charsLeb, hac]
    · by_cases hba : b.toNat < a.toNat
      · simp [charsLeb, hab, hba] at h1
      · by_cases hcb : c.toNat < b.toNat
        · simp [charsLeb, hbc, hcb] at h2
        · have h1a : charsLeb as bs = true := by simpa [charsLeb, hab, hba] using h1
          have h2a : charsLeb bs cs = true := by simpa [charsLeb, hbc, hcb] using h2
          have hac : ¬ a.toNat < c.toNat := by omega
          have hca : ¬ c.toNat < a.toNat := by omega
          simp [charsLeb, hac, hca]
          exact charsLeb_trans as bs cs h1a h2a

instance : IsTotal String strLe := ⟨fun a b => charsLeb_total a.data b.data⟩

instance : IsTrans String strLe := ⟨fun a b c h1 h2 => charsLeb_trans a.data b.data c.data h1 h2⟩

instance : IsAntisymm String strLe :=
  ⟨fun a b h1 h2 => by
    have h := charsLeb_antisymm a.data b.data h1 h2
    cases a
    cases b
    exact congrArg String.mk h⟩

/-- Any two permuted inputs have the same `sorted` output. -/
theorem insertionSort_strLe_perm {l₁ l₂ : List String} (h : l₁.Perm l₂) :
    List.insertionSort strLe l₁ = List.insertionSort strLe l₂ :=
  List.eq_of_perm_of_sorted
    ((List.perm_insertionSort strLe l₁).trans (h.trans (List.perm_insertionSort strLe l₂).symm))
    (List.sorted_insertionSort strLe l₁) (List.sorted_insertionSort strLe l₂)

/-- The fingerprint is invariant under permutation of the trace ids. -/
theorem cdv_perm {l₁ l₂ : List String} (h : l₁.Perm l₂) :
    compute_dataset_version l₁ = compute_dataset_version l₂ := by
  unfold compute_dataset_version
  rw [insertionSort_strLe_perm h]

/-! ## Proof layer: the hex digest -/

/-- The image of a reduced nibble under `hexChar` is a hex digit. -/
theorem hexChar_mod_mem (n : Nat) : hexChar (n % 16) ∈ hexAlphabet := by
  have h16 : n % 16 < 16 := Nat.mod_lt _ (by decide)
  have hfin : ∀ m : Fin 16, hexChar m.val ∈ hexAlphabet := by decide
  exact hfin ⟨n % 16, h16⟩

/-- Every character of a word's hex rendering is a hex digit. -/
theorem mem_hexAlphabet_of_mem_wordHexChars {c : Char} {w : Nat}
    (h : c ∈ wordHexChars w) : c ∈ hexAlphabet := by
  simp only [wordHexChars, List.mem_cons, List.not_mem_nil, or_false] at h
  rcases h with rfl | rfl | rfl | rfl | rfl | rfl | rfl | rfl <;> exact hexChar_mod_mem _

/-- Every character of a SHA-256 hex digest is a hex digit. -/
theorem mem_hexAlphabet_of_mem_sha256HexChars {c : Char} {msg : List Nat}
    (h : c ∈ sha256HexChars msg) : c ∈ hexAlphabet := by
  simp only [sha256HexChars, List.mem_flatten, List.mem_map] at h
  obtain ⟨l, ⟨w, hw, rfl⟩, hc⟩ := h
  exact mem_hexAlphabet_of_mem_wordHexChars hc

/-- A SHA-256 hex digest has 64 characters. -/
theorem sha256HexChars_len (msg : List Nat) : (sha256HexChars msg).length = 64 := rfl

/-! ## Claims C1 and C2: the fingerprint engine -/

/-- Claim C1 counterexample: `["a", "a"]` and `["a"]` denote the same set of
trace ids, yet `compute_dataset_version` fingerprints them differently —
the source sorts with Python `sorted`, which keeps duplicate entries, and
never deduplicates. -/
theorem claim_C1_counterexample :
    compute_dataset_version ["a", "a"] ≠ compute_dataset_version ["a"] := by decide

/-- Claim C1 (amended): `compute_dataset_version` returns the same
fingerprint for every two trace-id lists with the same elements and the
same multiplicities, in any order — it is invariant under permutation of
its input.  (Duplicate entries, contrary to the original claim, can change
the fingerprint.) -/
theorem claim_C1 {l₁ l₂ : List String} (h : l₁.Perm l₂) :
    compute_dataset_version l₁ = compute_dataset_version l₂ := cdv_perm h

/-- Claim C1 witness: the permuted lists `["b", "a"]` and `["a", "b"]` get
the same fingerprint. -/
theorem claim_C1_witness :
    (["b", "a"] : List String).Perm ["a", "b"] ∧
      compute_dataset_version ["b", "a"] = compute_dataset_version ["a", "b"] :=
  ⟨List.Perm.swap "a" "b" [], claim_C1 (List.Perm.swap "a" "b" [])⟩

/-- Claim C2: on pairwise-distinct trace ids, `compute_dataset_version` is
exactly the first 8 hex characters of the SHA-256 digest of the
concatenation of the sorted ids (the spec-worded `spec_fingerprint`,
whose deduplication is a no-op on such input); it is a pure total function
returning 8 hex characters, permutations yield an identical fingerprint,
and the empty list has the well-defined fingerprint `"e3b0c442"`. -/
theorem claim_C2 (L : List String) (h : L.Nodup) :
    compute_dataset_version L = spec_fingerprint L ∧
      (compute_dataset_version L).length = 8 ∧
      (∀ c ∈ (compute_dataset_version L).data, c ∈ hexAlphabet) ∧
      (∀ L2 : List String, L.Perm L2 →
        compute_dataset_version L2 = compute_dataset_version L) ∧
      compute_dataset_version ([] : List String) = "e3b0c442" := by
  refine ⟨?_, ?_, ?_, ?_, by decide⟩
  · unfold spec_fingerprint compute_dataset_version
    rw [List.dedup_eq_self.mpr h]
  · show (List.take 8 (sha256HexChars
      (strBytes (String.join (List.insertionSort strLe L))))).length = 8
    rw [List.length_take, sha256HexChars_len]
    decide
  · intro c hc
    have hc2 : c ∈ List.take 8 (sha256HexChars
        (strBytes (String.join (List.insertionSort strLe L)))) := hc
    exact mem_hexAlphabet_of_mem_sha256HexChars (List.mem_of_mem_take hc2)
  · intro L2 h2
    exact (cdv_perm h2).symm

/-- Claim C2 witness: instantiated at the duplicate-free list `["b", "a"]`. -/
theorem claim_C2_witness :
    (["b", "a"] : List String).Nodup ∧
      compute_dataset_version ["b", "a"] = spec_fingerprint ["b", "a"] :=
  ⟨by decide, (claim_C2 ["b", "a"] (by decide)).1⟩

/-! ## Claim C8: the confusion matrix -/

/-- The tally loop counts each of the four cells with `countP`. -/
theorem cm_foldl_spec :
    ∀ (l : List (String × String)) (acc : ConfusionMatrix),
      l.foldl cm_tally acc =
        ⟨acc.true_positive + l.countP tp_pred, acc.false_negative + l.countP fn_pred,
          acc.false_positive + l.countP fp_pred, acc.true_negative + l.countP tn_pred⟩
  | [], acc => by cases acc; simp
  | p :: rest, acc => by
    rw [List.foldl_cons, cm_foldl_spec rest (cm_tally acc p)]
    cases h1 : label_is_pass p.1 <;> cases h2 : label_is_pass p.2 <;>
      simp [List.countP_cons, tp_pred, fn_pred, fp_pred, tn_pred, cm_tally, h1, h2,
        ConfusionMatrix.mk.injEq] <;> omega

/-- Each zipped pair lands in exactly one cell, so the four cells sum to the
number of pairs. -/
theorem countP_four_split :
    ∀ l : List (String × String),
      l.countP tp_pred + l.countP fn_pred + l.countP fp_pred + l.countP tn_pred = l.length
  | [] => rfl
  | p :: rest => by
    have ih := countP_four_split rest
    cases h1 : label_is_pass p.1 <;> cases h2 : label_is_pass p.2 <;>
      simp [List.countP_cons, List.length_cons, tp_pred, fn_pred, fp_pred, tn_pred, h1, h2] <;>
        omega

/-- Claim C8: on equal-length label lists, `calculate_confusion_matrix`
normalizes each label by case-insensitive comparison with `"pass"` and
counts the four cells as stated, the cells sum to the list length, the
agreement count is the number of case-insensitive matches, and the
concrete scenario from the spec comes out as `tp=1, fn=1, fp=1, tn=0` with
agreement count 1. -/
theorem claim_C8 (hl jl : List String) (hlen : hl.length = jl.length) :
    calculate_confusion_matrix hl jl =
        Except.ok
          ⟨(hl.zip jl).countP tp_pred, (hl.zip jl).countP fn_pred,
            (hl.zip jl).countP fp_pred, (hl.zip jl).countP tn_pred⟩ ∧
      (hl.zip jl).countP tp_pred + (hl.zip jl).countP fn_pred + (hl.zip jl).countP fp_pred +
          (hl.zip jl).countP tn_pred = hl.length ∧
      agreement_count hl jl = (hl.zip jl).countP agree_pred ∧
      (calculate_confusion_matrix ["pass", "fail", "pass"] ["pass", "pass", "fail"] =
          Except.ok ⟨1, 1, 1, 0⟩ ∧
        agreement_count ["pass", "fail", "pass"] ["pass", "pass", "fail"] = 1) := by
  refine ⟨?_, ?_, rfl, by decide, by decide⟩
  · have h0 : (hl.length != jl.length) = false := by simp [hlen]
    simp [calculate_confusion_matrix, h0, cm_foldl_spec]
  · have hz : (hl.zip jl).length = hl.length := by simp [List.length_zip, hlen]
    rw [countP_four_split, hz]

/-- Claim C8 witness: the spec scenario, via the theorem at the concrete
label lists. -/
theorem claim_C8_witness :
    calculate_confusion_matrix ["pass", "fail", "pass"] ["pass", "pass", "fail"] =
        Except.ok ⟨1, 1, 1, 0⟩ ∧
      agreement_count ["pass", "fail", "pass"] ["pass", "pass", "fail"] = 1 :=
  (claim_C8 ["pass", "fail", "pass"] ["pass", "pass", "fail"] rfl).2.2.2

/-! ## Proof layer: state shapes of cache and evaluation operations -/

/-- A fresh write is found by the next lookup of the same key. -/
theorem alGet_alPut_self {α : Type} (m : List (String × α)) (k : String) (v : α) :
    alGet (alPut m k v) k = some v := by
  simp [alGet, alPut]

/-- Operation `get_trace` changes at most the trace cache. -/
theorem get_trace_shape (env : Env) (st : St) (tid : String) :
    ∃ tc, (get_trace env st tid).2 = { st with trace_cache := tc } := by
  cases h1 : alGet st.trace_cache tid with
  | some t => exact ⟨st.trace_cache, by simp [get_trace, h1]⟩
  | none =>
    cases h2 : env.remote_trace tid with
    | some t => exact ⟨alPut st.trace_cache tid t, by simp [get_trace, h1, h2]⟩
    | none => exact ⟨st.trace_cache, by simp [get_trace, h1, h2]⟩

/-- Operation `fetch_traces` changes at most the trace cache. -/
theorem fetch_traces_shape (env : Env) :
    ∀ (tids : List String) (st : St),
      ∃ tc, (fetch_traces env st tids).2 = { st with trace_cache := tc }
  | [], st => ⟨st.trace_cache, rfl⟩
  | tid :: rest, st => by
    obtain ⟨tc1, h1⟩ := get_trace_shape env st tid
    cases hg : get_trace env st tid with
    | mk ot st2 =>
      rw [hg] at h1
      have h1a : st2 = { st with trace_cache := tc1 } := h1
      cases ot with
      | some t =>
        obtain ⟨tc2, h2⟩ := fetch_traces_shape env rest st2
        cases hf : fetch_traces env st2 rest with
        | mk ts st3 =>
          rw [hf] at h2
          have h2a : st3 = { st2 with trace_cache := tc2 } := h2
          refine ⟨tc2, ?_⟩
          simp only [fetch_traces, hg, hf]
          rw [h2a, h1a]
      | none =>
        obtain ⟨tc2, h2⟩ := fetch_traces_shape env rest st2
        refine ⟨tc2, ?_⟩
        simp only [fetch_traces, hg]
        rw [h2, h1a]

/-- Operation `find_evaluation_run` changes at most the evaluation cache. -/
theorem find_evaluation_run_shape (env : Env) (st : St) (j : String) (v : Nat)
    (eid dv : String) :
    ∃ ec, (find_evaluation_run env st j v eid dv).2 = { st with evaluation_cache := ec } := by
  cases h : env.search_run j v eid dv with
  | some rid =>
    exact ⟨alPut st.evaluation_cache (evalCacheKey j v dv) rid,
      by simp [find_evaluation_run, h]⟩
  | none => exact ⟨st.evaluation_cache, by simp [find_evaluation_run, h]⟩

/-- Operation `get_evaluation_run_id` changes at most the evaluation cache. -/
theorem get_evaluation_run_id_shape (env : Env) (st : St) (j : String) (v : Nat)
    (tids : List String) (eo : Option String) :
    ∃ ec, (get_evaluation_run_id env st j v tids eo).2 = { st with evaluation_cache := ec } := by
  unfold get_evaluation_run_id
  cases h1 : alGet st.evaluation_cache (evalCacheKey j v (compute_dataset_version tids)) with
  | some rid => exact ⟨st.evaluation_cache, by simp [h1]⟩
  | none =>
    cases eo with
    | none => exact ⟨st.evaluation_cache, by simp [h1]⟩
    | some eid =>
      by_cases he : eid = ""
      · exact ⟨st.evaluation_cache, by simp [h1, he]⟩
      · obtain ⟨ec, hf⟩ :=
          find_evaluation_run_shape env st j v eid (compute_dataset_version tids)
        refine ⟨ec, ?_⟩
        have he2 : (eid == "") = false := by simp [he]
        simp only [h1, he2, Bool.false_eq_true, if_false]
        cases truthyStr (find_evaluation_run env st j v eid (compute_dataset_version tids)).1 <;>
          simp [hf]

/-- The miss path touches only the two caches and logs at most one
evaluator-call event. -/
theorem evaluate_judge_miss_shape (env : Env) (st : St) (judge : Judge) (j : String)
    (tids : List String) :
    ∃ tc ec evs,
      (evaluate_judge_miss env st judge j tids).2 =
        { st with trace_cache := tc, evaluation_cache := ec, events := evs } ∧
      (evs = st.events ∨ evs = Event.evaluatorCall j judge.version :: st.events) := by
  cases hs : get_judge_scorer env judge with
  | none =>
    exact ⟨st.trace_cache, st.evaluation_cache, st.events,
      by simp [evaluate_judge_miss, hs], Or.inl rfl⟩
  | some s =>
    cases hf : fetch_traces env st tids with
    | mk traces st2 =>
      obtain ⟨tc, h2⟩ := fetch_traces_shape env tids st
      rw [hf] at h2
      have h2a : st2 = { st with trace_cache := tc } := h2
      by_cases hemp : traces.isEmpty
      · refine ⟨tc, st.evaluation_cache, st.events, ?_, Or.inl rfl⟩
        simp [evaluate_judge_miss, hs, hf, hemp, h2a]
      · cases hex : env.evaluate_exec j judge.version with
        | error e =>
          refine ⟨tc, st.evaluation_cache,
            Event.evaluatorCall j judge.version :: st.events, ?_, Or.inr rfl⟩
          simp [evaluate_judge_miss, hs, hf, hemp, hex, h2a]
        | ok u =>
          cases u
          refine ⟨tc,
            alPut st.evaluation_cache
              (evalCacheKey j judge.version (compute_dataset_version tids))
              (env.fresh_run_id j judge.version),
            Event.evaluatorCall j judge.version :: st.events, ?_, Or.inr rfl⟩
          simp [evaluate_judge_miss, hs, hf, hemp, hex, cache_evaluation_run_id, h2a]

/-- The body of `evaluate_judge` touches only the two caches and logs at
most one evaluator-call event. -/
theorem evaluate_judge_body_shape (env : Env) (st : St) (j : String) (tids : List String) :
    ∃ tc ec evs,
      (evaluate_judge_body env st j tids).2 =
        { st with trace_cache := tc, evaluation_cache := ec, events := evs } ∧
      (evs = st.events ∨ ∃ v, evs = Event.evaluatorCall j v :: st.events) := by
  cases hj : get_judge st j with
  | none =>
    exact ⟨st.trace_cache, st.evaluation_cache, st.events,
      by simp [evaluate_judge_body, hj], Or.inl rfl⟩
  | some judge =>
    cases hge : get_evaluation_run_id env st j judge.version tids (some judge.experiment_id) with
    | mk cached st1 =>
      obtain ⟨ec1, h1⟩ :=
        get_evaluation_run_id_shape env st j judge.version tids (some judge.experiment_id)
      rw [hge] at h1
      have h1a : st1 = { st with evaluation_cache := ec1 } := h1
      by_cases ht : truthyStr cached
      · refine ⟨st.trace_cache, ec1, st.events, ?_, Or.inl rfl⟩
        simp [evaluate_judge_body, hj, hge, ht, h1a]
      · obtain ⟨tc, ec2, evs, hm, hevs⟩ := evaluate_judge_miss_shape env st1 judge j tids
        refine ⟨tc, ec2, evs, ?_, ?_⟩
        · have hgoal : (evaluate_judge_body env st j tids).2 =
              (evaluate_judge_miss env st1 judge j tids).2 := by
            simp [evaluate_judge_body, hj, hge, ht]
          rw [hgoal, hm, h1a]
        · rcases hevs with he | he
          · exact Or.inl (by rw [he, h1a])
          · exact Or.inr ⟨judge.version, by rw [he, h1a]⟩

/-- Function `evaluate_judge` has the same post-state as its body. -/
theorem evaluate_judge_snd (env : Env) (st : St) (j : String) (tids : List String) :
    (evaluate_judge env st j tids).2 = (evaluate_judge_body env st j tids).2 := by
  unfold evaluate_judge
  rcases h : evaluate_judge_body env st j tids with ⟨e | r, st2⟩ <;> rfl

/-- Function `evaluate_judge` touches only the two caches and logs at most one
evaluator-call event. -/
theorem evaluate_judge_shape (env : Env) (st : St) (j : String) (tids : List String) :
    ∃ tc ec evs,
      (evaluate_judge env st j tids).2 =
        { st with trace_cache := tc, evaluation_cache := ec, events := evs } ∧
      (evs = st.events ∨ ∃ v, evs = Event.evaluatorCall j v :: st.events) := by
  rw [evaluate_judge_snd]
  exact evaluate_judge_body_shape env st j tids

/-- Function `evaluate_judge` leaves the judge registry untouched. -/
theorem evaluate_judge_judges (env : Env) (st : St) (j : String) (tids : List String) :
    (evaluate_judge env st j tids).2.judges = st.judges := by
  obtain ⟨tc, ec, evs, hsh, _⟩ := evaluate_judge_shape env st j tids
  rw [hsh]

/-- Function `evaluate_judge` adds no event other than evaluator calls. -/
theorem evaluate_judge_countP (env : Env) (st : St) (j : String) (tids : List String)
    (p : Event → Bool) (hp : ∀ a b, p (Event.evaluatorCall a b) = false) :
    countEvents p (evaluate_judge env st j tids).2.events = countEvents p st.events := by
  obtain ⟨tc, ec, evs, hsh, hevs⟩ := evaluate_judge_shape env st j tids
  rw [hsh]
  rcases hevs with he | ⟨v, he⟩
  · rw [he]
  · show List.countP p evs = List.countP p st.events
    rw [he, List.countP_cons, hp]
    simp

/-- Function `evaluate_judge` invokes the evaluator at most once. -/
theorem evaluate_judge_evalCount (env : Env) (st : St) (j : String) (tids : List String) :
    countEvents isEvaluatorCall (evaluate_judge env st j tids).2.events ≤
      countEvents isEvaluatorCall st.events + 1 := by
  obtain ⟨tc, ec, evs, hsh, hevs⟩ := evaluate_judge_shape env st j tids
  rw [hsh]
  show List.countP isEvaluatorCall evs ≤ List.countP isEvaluatorCall st.events + 1
  rcases hevs with he | ⟨v, he⟩
  · rw [he]; omega
  · rw [he, List.countP_cons]
    simp [isEvaluatorCall]

/-- A key present in the evaluation cache is returned directly, with no
state change. -/
theorem get_evaluation_run_id_cache_hit (env : Env) (st : St) (j : String) (v : Nat)
    (tids : List String) (eo : Option String) (rid : String)
    (h : alGet st.evaluation_cache (evalCacheKey j v (compute_dataset_version tids)) = some rid) :
    get_evaluation_run_id env st j v tids eo = (some rid, st) := by
  simp [get_evaluation_run_id, h]

/-- The cache-hit fast path: when the lookup yields a truthy run id,
`evaluate_judge` returns it with the lookup's post-state — in particular it
runs nothing after the lookup. -/
theorem evaluate_judge_hit (env : Env) (st : St) (j : String) (tids : List String)
    (judge : Judge) (rid : String) (st1 : St)
    (hj : get_judge st j = some judge)
    (hge : get_evaluation_run_id env st j judge.version tids (some judge.experiment_id) =
      (some rid, st1))
    (hr : ¬ rid = "") :
    evaluate_judge env st j tids =
      ({ judge_id := j, judge_version := judge.version, mlflow_run_id := rid,
         evaluation_results := [], total_traces := tids.length }, st1) := by
  have ht : truthyStr (some rid) = true := by simp [truthyStr, hr]
  simp [evaluate_judge, evaluate_judge_body, hj, hge, ht]

/-- Under a judge whose key is already cached with a truthy run id,
`evaluate_judge` is a pure read: it returns the cached id and leaves the
state untouched. -/
theorem evaluate_judge_cached_hit (env : Env) (st : St) (j : String) (tids : List String)
    (judge : Judge) (rid : String)
    (hj : get_judge st j = some judge)
    (hc : alGet st.evaluation_cache (evalCacheKey j judge.version (compute_dataset_version tids)) =
      some rid)
    (hr : ¬ rid = "") :
    evaluate_judge env st j tids =
      ({ judge_id := j, judge_version := judge.version, mlflow_run_id := rid,
         evaluation_results := [], total_traces := tids.length }, st) :=
  evaluate_judge_hit env st j tids judge rid st
    hj (get_evaluation_run_id_cache_hit env st j judge.version tids (some judge.experiment_id) rid hc)
    hr

/-- When the executor cannot fail, one `evaluate_judge` call either logs no
event at all or leaves the evaluation-run key cached with the fresh run
id. -/
theorem evaluate_judge_hexec (env : Env) (st : St) (j : String) (tids : List String)
    (judge : Judge)
    (hj : get_judge st j = some judge)
    (hExec : env.evaluate_exec j judge.version = Except.ok ()) :
    (evaluate_judge env st j tids).2.events = st.events ∨
      alGet (evaluate_judge env st j tids).2.evaluation_cache
          (evalCacheKey j judge.version (compute_dataset_version tids)) =
        some (env.fresh_run_id j judge.version) := by
  cases hge : get_evaluation_run_id env st j judge.version tids (some judge.experiment_id) with
  | mk cached st1 =>
    obtain ⟨ec1, h1⟩ :=
      get_evaluation_run_id_shape env st j judge.version tids (some judge.experiment_id)
    rw [hge] at h1
    have h1a : st1 = { st with evaluation_cache := ec1 } := h1
    by_cases ht : truthyStr cached
    · left
      simp [evaluate_judge, evaluate_judge_body, hj, hge, ht, h1a]
    · have hsnd : (evaluate_judge env st j tids).2 = (evaluate_judge_miss env st1 judge j tids).2 := by
        rw [evaluate_judge_snd]
        simp [evaluate_judge_body, hj, hge, ht]
      cases hs : get_judge_scorer env judge with
      | none =>
        left
        rw [hsnd]
        simp [evaluate_judge_miss, hs, h1a]
      | some s =>
        cases hf : fetch_traces env st1 tids with
        | mk traces st2 =>
          by_cases hemp : traces.isEmpty
          · left
            rw [hsnd]
            obtain ⟨tc, h2⟩ := fetch_traces_shape env tids st1
            rw [hf] at h2
            have h2a : st2 = { st1 with trace_cache := tc } := h2
            simp only [evaluate_judge_miss, hs]
            rw [hf]
            simp [hemp, h2a, h1a]
          · right
            rw [hsnd]
            simp only [evaluate_judge_miss, hs]
            rw [hf]
            simp [hemp, hExec, cache_evaluation_run_id, alGet_alPut_self]

set_option maxRecDepth 8000 in
/-- Claim C3 counterexample: two successive `evaluate_judge` calls with the
same judge, version and trace-id list can invoke the external evaluator
twice — once when the first call's executor fails (nothing is cached), and
once when the backend-assigned run id is the empty string (a falsy id is
not accepted as a hit). -/
theorem claim_C3_counterexample :
    countEvents isEvaluatorCall
        (evaluate_judge envFailExec
          (evaluate_judge envFailExec st0 "j1" ["t1", "t2"]).2 "j1" ["t1", "t2"]).2.events = 2 ∧
      countEvents isEvaluatorCall
        (evaluate_judge envEmptyRun
          (evaluate_judge envEmptyRun st0 "j1" ["t1", "t2"]).2 "j1" ["t1", "t2"]).2.events = 2 := by
  constructor <;> decide

/-- Claim C3 (amended): (a) whenever the evaluation-run lookup (cache or
remote-search fallback) yields a truthy run id, `evaluate_judge` returns
that run id and invokes no external evaluator — the event log is unchanged;
(b) two successive calls with the same judge, version and trace-id list
invoke the evaluator at most once in total, provided the executor does not
fail and the backend-assigned run ids are nonempty. -/
theorem claim_C3 (env : Env) (st : St) (j : String) (tids : List String) :
    (∀ judge rid st1,
        get_judge st j = some judge →
        get_evaluation_run_id env st j judge.version tids (some judge.experiment_id) =
          (some rid, st1) →
        ¬ rid = "" →
        (evaluate_judge env st j tids).1.mlflow_run_id = rid ∧
          (evaluate_judge env st j tids).2.events = st.events) ∧
      ((∀ a b, env.evaluate_exec a b = Except.ok ()) →
        (∀ a b, ¬ env.fresh_run_id a b = "") →
        countEvents isEvaluatorCall
            (evaluate_judge env (evaluate_judge env st j tids).2 j tids).2.events ≤
          countEvents isEvaluatorCall st.events + 1) := by
  constructor
  · intro judge rid st1 hj hge hr
    obtain ⟨ec1, h1⟩ :=
      get_evaluation_run_id_shape env st j judge.version tids (some judge.experiment_id)
    rw [hge] at h1
    have h1a : st1 = { st with evaluation_cache := ec1 } := h1
    rw [evaluate_judge_hit env st j tids judge rid st1 hj hge hr]
    simp [h1a]
  · intro hExec hRun
    cases hj : get_judge st j with
    | none =>
      have hfail : evaluate_judge env st j tids =
          (degraded_result j, st) := by
        simp [evaluate_judge, evaluate_judge_body, hj]
      rw [hfail]
      calc countEvents isEvaluatorCall (evaluate_judge env st j tids).2.events
          ≤ countEvents isEvaluatorCall st.events + 1 := evaluate_judge_evalCount env st j tids
    | some judge =>
      rcases evaluate_judge_hexec env st j tids judge hj (hExec j judge.version) with hev | hkey
      · have h2 := evaluate_judge_evalCount env (evaluate_judge env st j tids).2 j tids
        rw [hev] at h2
        exact h2
      · have hj2 : get_judge (evaluate_judge env st j tids).2 j = some judge := by
          unfold get_judge
          rw [evaluate_judge_judges]
          exact hj
        rw [evaluate_judge_cached_hit env (evaluate_judge env st j tids).2 j tids judge
          (env.fresh_run_id j judge.version) hj2 hkey (hRun j judge.version)]
        exact evaluate_judge_evalCount env st j tids

set_option maxRecDepth 8000 in
/-- Claim C3 witness: with the run id `"r0"` for judge `j1` version 1
already cached, the call returns `"r0"` without any evaluator event; and
the at-most-once bound holds for the concrete succeeding environment. -/
theorem claim_C3_witness :
    (evaluate_judge envOk stHit "j1" ["t1", "t2"]).1.mlflow_run_id = "r0" ∧
      countEvents isEvaluatorCall
          (evaluate_judge envOk (evaluate_judge envOk st0 "j1" ["t1", "t2"]).2
            "j1" ["t1", "t2"]).2.events ≤
        countEvents isEvaluatorCall st0.events + 1 := by
  constructor
  · exact ((claim_C3 envOk stHit "j1" ["t1", "t2"]).1 judge1 "r0" stHit
      (by decide) (by decide) (by decide)).1
  · refine (claim_C3 envOk st0 "j1" ["t1", "t2"]).2 (fun a b => rfl) (fun a b => ?_)
    show ¬ "run-1" = ""
    decide

/-! ## Claims C4 and C5: evaluate_judge error handling -/

set_option maxRecDepth 8000 in
/-- Claim C4 counterexample: with no judge `nope` registered,
`evaluate_judge` raises the not-found `ValueError` internally but returns
the degraded zero-count `EvaluationResult` — a normal result, not a
client-class error; the catch-all at lines 136-144 swallows all three
claimed 404-class conditions. -/
theorem claim_C4_counterexample :
    (evaluate_judge_body envFailExec st0 "nope" ["t1"]).1 =
        Except.error (PyError.valueError "Judge nope not found") ∧
      evaluate_judge envFailExec st0 "nope" ["t1"] = (degraded_result "nope", st0) := by
  constructor <;> decide

/-- Claim C4 (amended): `evaluate_judge` detects the three conditions —
judge not found, no scorer registered, zero traces resolved — and raises a
`ValueError` for each inside its body, but its top-level handler converts
every one of them into the degraded zero-count `EvaluationResult`; the
caller receives a normal result, never a 404-class error. -/
theorem claim_C4 (env : Env) (st : St) (j : String) (tids : List String) :
    (get_judge st j = none →
        (evaluate_judge_body env st j tids).1 =
            Except.error (PyError.valueError ("Judge " ++ j ++ " not found")) ∧
          (evaluate_judge env st j tids).1 = degraded_result j) ∧
      (∀ judge st1,
        get_judge st j = some judge →
        get_evaluation_run_id env st j judge.version tids (some judge.experiment_id) =
          (none, st1) →
        get_judge_scorer env judge = none →
        (evaluate_judge_body env st j tids).1 =
            Except.error (PyError.valueError ("Scorer for judge " ++ judge.name ++ " not found")) ∧
          (evaluate_judge env st j tids).1 = degraded_result j) ∧
      (∀ judge st1 st2,
        get_judge st j = some judge →
        get_evaluation_run_id env st j judge.version tids (some judge.experiment_id) =
          (none, st1) →
        get_judge_scorer env judge ≠ none →
        fetch_traces env st1 tids = ([], st2) →
        (evaluate_judge_body env st j tids).1 =
            Except.error (PyError.valueError "No valid traces found") ∧
          (evaluate_judge env st j tids).1 = degraded_result j) := by
  refine ⟨?_, ?_, ?_⟩
  · intro hj
    constructor <;> simp [evaluate_judge, evaluate_judge_body, hj]
  · intro judge st1 hj hge hs
    constructor <;>
      simp [evaluate_judge, evaluate_judge_body, hj, hge, truthyStr, evaluate_judge_miss, hs]
  · intro judge st1 st2 hj hge hs hf
    cases hsc : get_judge_scorer env judge with
    | none => exact absurd hsc hs
    | some s =>
      constructor <;>
        simp [evaluate_judge, evaluate_judge_body, hj, hge, truthyStr, evaluate_judge_miss,
          hsc, hf]

set_option maxRecDepth 8000 in
/-- Claim C4 witness: each of the three conditions, instantiated — judge
missing at `nope`; scorer missing when the registry has no scorers; zero
traces when the remote backend has none. -/
theorem claim_C4_witness :
    (evaluate_judge envFailExec st0 "nope" ["t1"]).1 = degraded_result "nope" ∧
      (evaluate_judge { envFailExec with scorer_names := [] } st0 "j1" ["t1"]).1 =
        degraded_result "j1" ∧
      (evaluate_judge { envFailExec with remote_trace := fun _ => none } st0 "j1" ["t1"]).1 =
        degraded_result "j1" := by
  refine ⟨((claim_C4 envFailExec st0 "nope" ["t1"]).1 (by decide)).2, ?_, ?_⟩
  · exact (((claim_C4 { envFailExec with scorer_names := [] } st0 "j1" ["t1"]).2.1)
      judge1 st0 (by decide) (by decide) (by decide)).2
  · exact (((claim_C4 { envFailExec with remote_trace := fun _ => none } st0 "j1" ["t1"]).2.2)
      judge1 st0 st0 (by decide) (by decide) (by decide) (by decide)).2

/-- Claim C5: whenever the body of `evaluate_judge` fails with any
exception (executor failure included), `evaluate_judge` propagates nothing
and returns the `EvaluationResult` with `judge_version 0`, empty run id,
empty `evaluation_results` and `total_traces 0`. -/
theorem claim_C5 (env : Env) (st : St) (j : String) (tids : List String)
    (e : PyError) (st2 : St)
    (h : evaluate_judge_body env st j tids = (Except.error e, st2)) :
    evaluate_judge env st j tids =
      ({ judge_id := j, judge_version := 0, mlflow_run_id := "",
         evaluation_results := [], total_traces := 0 }, st2) := by
  simp [evaluate_judge, h, degraded_result]

set_option maxRecDepth 8000 in
/-- Claim C5 witness: an executor failure inside the body degrades to the
zero-count result. -/
theorem claim_C5_witness :
    evaluate_judge envFailExec st0 "j1" ["t1", "t2"] =
      ({ judge_id := "j1", judge_version := 0, mlflow_run_id := "",
         evaluation_results := [], total_traces := 0 },
        (evaluate_judge_body envFailExec st0 "j1" ["t1", "t2"]).2) :=
  claim_C5 envFailExec st0 "j1" ["t1", "t2"] (PyError.executorError "executor down")
    (evaluate_judge_body envFailExec st0 "j1" ["t1", "t2"]).2 (by decide)

/-! ## Claims C6, C7, C9, C10: run_alignment -/

/-- On the path past the sufficiency check, `run_alignment` always ends at
the `cache_service.get_traces` `AttributeError`, with exactly the baseline
evaluation and one trace-cache invalidation performed. -/
theorem run_alignment_deep (env : Env) (st : St) (j : String) (judge : Judge)
    (traces : List Trace) (st1 : St) (r : EvaluationResult) (st2 : St)
    (hj : get_judge st j = some judge)
    (hf : fetch_traces env st ((env.get_examples j).map LabelExample.trace_id) = (traces, st1))
    (hemp : traces.isEmpty = false)
    (hlab : ¬ env.labeled_examples j < MIN_EXAMPLES_FOR_OPTIMIZATION)
    (hev : evaluate_judge env st1 j (traces.map Trace.trace_id) = (r, st2)) :
    run_alignment env st j =
      (Except.error (PyError.attributeError "CacheService object has no attribute get_traces"),
        { st2 with
            trace_cache :=
              (traces.map Trace.trace_id).foldl (fun c tid => alDel c tid) st2.trace_cache,
            events :=
              Event.invalidateTracesCall (traces.map Trace.trace_id) :: st2.events }) := by
  simp [run_alignment, hj, hf, hemp, hlab, hev, invalidate_traces, cache_service_get_traces]

/-- Every `run_alignment` invocation fails, leaves the judge registry
untouched and creates no judge version and runs no optimizer. -/
theorem run_alignment_master (env : Env) (st : St) (j : String) :
    (∃ e, (run_alignment env st j).1 = Except.error e) ∧
      (run_alignment env st j).2.judges = st.judges ∧
      countEvents isCreateVersionCall (run_alignment env st j).2.events =
        countEvents isCreateVersionCall st.events ∧
      countEvents isOptimizeCall (run_alignment env st j).2.events =
        countEvents isOptimizeCall st.events := by
  cases hj : get_judge st j with
  | none =>
    refine ⟨⟨PyError.valueError ("Judge " ++ j ++ " not found"), ?_⟩, ?_, ?_, ?_⟩ <;>
      simp [run_alignment, hj]
  | some judge =>
    cases hf : fetch_traces env st ((env.get_examples j).map LabelExample.trace_id) with
    | mk traces st1 =>
      obtain ⟨tc1, h1⟩ := fetch_traces_shape env ((env.get_examples j).map LabelExample.trace_id) st
      rw [hf] at h1
      have h1a : st1 = { st with trace_cache := tc1 } := h1
      by_cases hemp : traces.isEmpty
      · refine ⟨⟨PyError.valueError "No traces found in labeling session", ?_⟩, ?_, ?_, ?_⟩ <;>
          simp [run_alignment, hj, hf, hemp, h1a]
      · by_cases hlab : env.labeled_examples j < MIN_EXAMPLES_FOR_OPTIMIZATION
        · refine ⟨⟨PyError.valueError
              (insufficient_examples_message (env.labeled_examples j)), ?_⟩, ?_, ?_, ?_⟩ <;>
            simp [run_alignment, hj, hf, hemp, hlab, h1a]
        · cases hev : evaluate_judge env st1 j (traces.map Trace.trace_id) with
          | mk r st2 =>
            have hemp2 : traces.isEmpty = false := by
              cases h : traces.isEmpty
              · rfl
              · exact absurd h hemp
            have hdeep := run_alignment_deep env st j judge traces st1 r st2 hj hf hemp2 hlab hev
            have hjud : st2.judges = st1.judges := by
              have := evaluate_judge_judges env st1 j (traces.map Trace.trace_id)
              rw [hev] at this
              exact this
            have hcnt : ∀ p : Event → Bool, (∀ a b, p (Event.evaluatorCall a b) = false) →
                countEvents p st2.events = countEvents p st1.events := by
              intro p hp
              have := evaluate_judge_countP env st1 j (traces.map Trace.trace_id) p hp
              rw [hev] at this
              exact this
            refine ⟨⟨_, by rw [hdeep]⟩, ?_, ?_, ?_⟩
            · rw [hdeep]
              show st2.judges = st.judges
              rw [hjud, h1a]
            · rw [hdeep]
              show List.countP isCreateVersionCall
                  (Event.invalidateTracesCall (traces.map Trace.trace_id) :: st2.events) =
                countEvents isCreateVersionCall st.events
              rw [List.countP_cons]
              have h2 := hcnt isCreateVersionCall (fun _ _ => rfl)
              rw [h1a] at h2
              simpa [isCreateVersionCall] using h2
            · rw [hdeep]
              show List.countP isOptimizeCall
                  (Event.invalidateTracesCall (traces.map Trace.trace_id) :: st2.events) =
                countEvents isOptimizeCall st.events
              rw [List.countP_cons]
              have h2 := hcnt isOptimizeCall (fun _ _ => rfl)
              rw [h1a] at h2
              simpa [isOptimizeCall] using h2

set_option linter.unusedVariables false in
/-- Claim C6: when the optimizer reports failure on every input,
`run_alignment` returns an explicit failure (never a success response),
`create_new_version` is never called, and the judge registry — hence the
judge's version and instructions — is untouched. -/
theorem claim_C6 (env : Env) (st : St) (j : String)
    (hopt : ∀ ts, env.optimize_result ts = false) :
    (∃ e, (run_alignment env st j).1 = Except.error e) ∧
      (∀ r, (run_alignment env st j).1 ≠ Except.ok r) ∧
      (run_alignment env st j).2.judges = st.judges ∧
      get_judge (run_alignment env st j).2 j = get_judge st j ∧
      countEvents isCreateVersionCall (run_alignment env st j).2.events =
        countEvents isCreateVersionCall st.events := by
  obtain ⟨⟨e, he⟩, hjud, hcv, _⟩ := run_alignment_master env st j
  refine ⟨⟨e, he⟩, ?_, hjud, ?_, hcv⟩
  · intro r hr
    rw [he] at hr
    cases hr
  · unfold get_judge
    rw [hjud]

/-- Claim C6 witness: the failing-optimizer environment, at judge `j1`. -/
theorem claim_C6_witness :
    (∀ ts, envFailExec.optimize_result ts = false) ∧
      ∃ e, (run_alignment envFailExec st0 "j1").1 = Except.error e :=
  ⟨fun _ => rfl, (claim_C6 envFailExec st0 "j1" (fun _ => rfl)).1⟩

/-- Claim C7 counterexample: an invocation whose labeled-example count is 3
(below the threshold of 10) but with no resolvable labeled trace fails with
the not-found message, not with the insufficient-data message. -/
theorem claim_C7_counterexample :
    envNoTraces.labeled_examples "j1" = 3 ∧
      run_alignment envNoTraces st0 "j1" =
        (Except.error (PyError.valueError "No traces found in labeling session"), st0) ∧
      "No traces found in labeling session" ≠ insufficient_examples_message 3 := by
  refine ⟨rfl, by decide, by decide⟩

/-- Claim C7 (amended): provided the judge exists and at least one labeled
trace resolves, an alignment invocation whose labeled-example count is
below the threshold of 10 fails with the insufficient-data `ValueError`
whose message names the actual count and the threshold, before any
optimizer invocation — indeed before logging any event at all. -/
theorem claim_C7 (env : Env) (st : St) (j : String) (judge : Judge)
    (traces : List Trace) (st1 : St)
    (hj : get_judge st j = some judge)
    (hf : fetch_traces env st ((env.get_examples j).map LabelExample.trace_id) = (traces, st1))
    (hne : traces.isEmpty = false)
    (hlab : env.labeled_examples j < MIN_EXAMPLES_FOR_OPTIMIZATION) :
    run_alignment env st j =
        (Except.error (PyError.valueError
          (insufficient_examples_message (env.labeled_examples j))), st1) ∧
      st1.events = st.events ∧
      countEvents isOptimizeCall (run_alignment env st j).2.events =
        countEvents isOptimizeCall st.events := by
  obtain ⟨tc1, hsh⟩ := fetch_traces_shape env ((env.get_examples j).map LabelExample.trace_id) st
  rw [hf] at hsh
  have hsh1 : st1 = { st with trace_cache := tc1 } := hsh
  have hmain : run_alignment env st j =
      (Except.error (PyError.valueError
        (insufficient_examples_message (env.labeled_examples j))), st1) := by
    simp [run_alignment, hj, hf, hne, hlab]
  refine ⟨hmain, by rw [hsh1], ?_⟩
  rw [hmain, hsh1]

set_option maxRecDepth 8000 in
/-- Claim C7 witness: judge `j1` with 3 labeled examples whose two traces
resolve fails with the message naming 3 and 10, with no event logged. -/
theorem claim_C7_witness :
    run_alignment { envFailExec with labeled_examples := fun _ => 3 } st0 "j1" =
        (Except.error (PyError.valueError (insufficient_examples_message 3)),
          (fetch_traces { envFailExec with labeled_examples := fun _ => 3 } st0
            ["t1", "t2"]).2) ∧
      insufficient_examples_message 3 =
        "Insufficient labeled examples for alignment. Found 3 labeled examples, but need " ++
          "at least 10. Please complete more labeling tasks before running alignment." := by
  constructor
  · exact (claim_C7 { envFailExec with labeled_examples := fun _ => 3 } st0 "j1" judge1
      [⟨"t1", "q", "r"⟩, ⟨"t2", "q", "r"⟩]
      (fetch_traces { envFailExec with labeled_examples := fun _ => 3 } st0 ["t1", "t2"]).2
      (by decide) (by decide) (by decide) (by decide)).1
  · decide

/-- Claim C10: every `run_alignment` invocation that finds the judge,
resolves at least one labeled trace and passes the sufficiency check fails
with the undefined-attribute error of the missing `CacheService.get_traces`
— after exactly one trace-cache invalidation, before any optimizer call and
before any version creation; and no invocation whatsoever can return a
success response. -/
theorem claim_C10 (env : Env) (st : St) (j : String) (judge : Judge)
    (hj : get_judge st j = some judge)
    (hne : (fetch_traces env st ((env.get_examples j).map LabelExample.trace_id)).1.isEmpty =
      false)
    (hlab : MIN_EXAMPLES_FOR_OPTIMIZATION ≤ env.labeled_examples j) :
    (run_alignment env st j).1 =
        Except.error (PyError.attributeError "CacheService object has no attribute get_traces") ∧
      countEvents isInvalidateCall (run_alignment env st j).2.events =
        countEvents isInvalidateCall st.events + 1 ∧
      countEvents isOptimizeCall (run_alignment env st j).2.events =
        countEvents isOptimizeCall st.events ∧
      countEvents isCreateVersionCall (run_alignment env st j).2.events =
        countEvents isCreateVersionCall st.events ∧
      (∀ (env2 : Env) (st2 : St) (j2 : String) (r : AlignmentResponse),
        (run_alignment env2 st2 j2).1 ≠ Except.ok r) := by
  cases hf : fetch_traces env st ((env.get_examples j).map LabelExample.trace_id) with
  | mk traces st1 =>
    rw [hf] at hne
    have hlab2 : ¬ env.labeled_examples j < MIN_EXAMPLES_FOR_OPTIMIZATION := by omega
    cases hev : evaluate_judge env st1 j (traces.map Trace.trace_id) with
    | mk r st2 =>
      have hdeep := run_alignment_deep env st j judge traces st1 r st2 hj hf hne hlab2 hev
      obtain ⟨tc1, h1⟩ := fetch_traces_shape env ((env.get_examples j).map LabelExample.trace_id) st
      rw [hf] at h1
      have h1a : st1 = { st with trace_cache := tc1 } := h1
      have hcnt : ∀ p : Event → Bool, (∀ a b, p (Event.evaluatorCall a b) = false) →
          countEvents p st2.events = countEvents p st.events := by
        intro p hp
        have := evaluate_judge_countP env st1 j (traces.map Trace.trace_id) p hp
        rw [hev] at this
        rw [this, h1a]
      refine ⟨by rw [hdeep], ?_, ?_, ?_, ?_⟩
      · rw [hdeep]
        show List.countP isInvalidateCall
            (Event.invalidateTracesCall (traces.map Trace.trace_id) :: st2.events) =
          countEvents isInvalidateCall st.events + 1
        rw [List.countP_cons]
        have h2 := hcnt isInvalidateCall (fun _ _ => rfl)
        simpa [isInvalidateCall] using h2
      · rw [hdeep]
        show List.countP isOptimizeCall
            (Event.invalidateTracesCall (traces.map Trace.trace_id) :: st2.events) =
          countEvents isOptimizeCall st.events
        rw [List.countP_cons]
        have h2 := hcnt isOptimizeCall (fun _ _ => rfl)
        simpa [isOptimizeCall] using h2
      · rw [hdeep]
        show List.countP isCreateVersionCall
            (Event.invalidateTracesCall (traces.map Trace.trace_id) :: st2.events) =
          countEvents isCreateVersionCall st.events
        rw [List.countP_cons]
        have h2 := hcnt isCreateVersionCall (fun _ _ => rfl)
        simpa [isCreateVersionCall] using h2
      · intro env2 stx jx rx hr
        obtain ⟨⟨e, he⟩, _, _, _⟩ := run_alignment_master env2 stx jx
        rw [he] at hr
        cases hr

set_option maxRecDepth 8000 in
/-- Claim C10 witness: the concrete 12-example alignment scenario hits the
undefined-attribute failure right after the single invalidation. -/
theorem claim_C10_witness :
    (run_alignment envAlign st0 "j1").1 =
        Except.error (PyError.attributeError "CacheService object has no attribute get_traces") ∧
      countEvents isInvalidateCall (run_alignment envAlign st0 "j1").2.events =
        countEvents isInvalidateCall st0.events + 1 := by
  have h := claim_C10 envAlign st0 "j1" judge1 (by decide) (by decide) (by decide)
  exact ⟨h.1, h.2.1⟩

set_option maxRecDepth 8000 in
/-- Claim C9 as the code runs it: in the spec's successful v1-to-v2
scenario (12 labeled examples, all resolvable, succeeding executor), the
baseline run id does get cached, but `run_alignment` then dies on the
missing `get_traces`: exactly one invalidation happens, no new version is
created, the judge stays at version 1, and the caller gets an
`AttributeError` instead of a success response with version 2. -/
theorem claim_C9 :
    (run_alignment envAlign st0 "j1").1 =
        Except.error (PyError.attributeError "CacheService object has no attribute get_traces") ∧
      countEvents isInvalidateCall (run_alignment envAlign st0 "j1").2.events = 1 ∧
      countEvents isCreateVersionCall (run_alignment envAlign st0 "j1").2.events = 0 ∧
      alGet (run_alignment envAlign st0 "j1").2.evaluation_cache
          (evalCacheKey "j1" 1 (compute_dataset_version
            ["t01", "t02", "t03", "t04", "t05", "t06",
             "t07", "t08", "t09", "t10", "t11", "t12"])) = some "run-1" ∧
      get_judge (run_alignment envAlign st0 "j1").2 "j1" = some judge1 := by
  decide

end JudgeBuilder
